import Mathlib

/-!
Shallow embedding of the micropanel HMI controller core, together with
theorems checking its natural-language specification.

The definitions mirror the C++ sources:
* `src/src/devices/InputDevice.cpp` (HID encoder / keyboard normalization),
* `src/src/devices/DisplayDevice.cpp` (serial-framed display backend),
* `src/src/devices/I2CDisplayDevice.cpp` (SSD1306 I²C backend),
* `src/src/modules/GenericListScreen.cpp` (list navigation and async jobs),
with `src/include/Config.h` constants.

Machine integers are modelled as `Int`/`Nat` with explicit truncation where
the C++ code converts; C truncating division is `Int.tdiv`, and
`static_cast<uint8_t>` is reduction modulo 256.
-/

/-- Truncation `static_cast<uint8_t>` of a C `int`: value modulo 256. -/
def u8 (v : Int) : Nat := (v % 256).toNat

/-! Config.h constants -/

def MAX_EVENTS_PER_ITERATION : Nat := 5
def EVENT_PROCESS_THRESHOLD : Int := 30
def CMD_CLEAR : Nat := 0x01
def CMD_DRAW_TEXT : Nat := 0x02
def CMD_SET_CURSOR : Nat := 0x03
def CMD_INVERT : Nat := 0x04
def CMD_BRIGHTNESS : Nat := 0x05
def CMD_PROGRESS_BAR : Nat := 0x06
def CMD_POWER_MODE : Nat := 0x07

/-! Linux evdev constants used by `InputDevice::processEvents` -/

def EV_KEY : Nat := 1
def EV_REL : Nat := 2
def REL_X : Nat := 0
def REL_Y : Nat := 1
def BTN_LEFT : Nat := 272
def KEY_ENTER : Nat := 28
def KEY_UP : Nat := 103
def KEY_LEFT : Nat := 105
def KEY_RIGHT : Nat := 106
def KEY_DOWN : Nat := 108

/-! InputDevice: HID encoder / keyboard event normalization -/

/-- A `struct timeval` as used with `gettimeofday`. -/
structure Timeval where
  sec : Int
  usec : Int
deriving Repr, DecidableEq

/-- The accumulator state `m_state` of `InputDevice` (InputDecoderState). -/
structure InputState where
  totalRelX : Int
  totalRelY : Int
  pairedEventCount : Nat
  lastEventTime : Timeval
deriving Repr, DecidableEq

/-- Initial value `m_state = \x7b\x7d` of the constructor: all fields zero. -/
def initInputState : InputState := ⟨0, 0, 0, ⟨0, 0⟩⟩

/-- A normalized event delivered through the `processEvents` callbacks. -/
inductive OutEvent
  | rotate (value : Int)
  | button
deriving Repr, DecidableEq

/-- A raw `struct input_event` read from the device, paired with the wall
clock (`gettimeofday`) observed while it is processed. -/
structure RawEvent where
  type : Nat
  code : Nat
  value : Int
  now : Timeval
deriving Repr, DecidableEq

/-- The time difference computed in the `REL_X`/`REL_Y` branches of
`processEvents`: 0 when no previous event was recorded
(`lastEventTime.tv_sec == 0`). -/
def timeDiffMs (last now : Timeval) : Int :=
  if last.sec ≠ 0 then
    (now.sec - last.sec) * 1000 + Int.tdiv (now.usec - last.usec) 1000
  else 0

/-- The local variables of one `processEvents` call while the read loop runs. -/
structure LoopState where
  st : InputState
  eventCount : Nat
  btnPress : Bool
  pendingMovement : Bool
  pendingVerticalMovement : Bool
  outs : List OutEvent
deriving Repr, DecidableEq

/-- One iteration of the read loop of `InputDevice::processEvents`: dispatch
on the event type/code exactly as the source does.  Keyboard rotations invoke
the rotation callback immediately (recorded in `outs`); `BTN_LEFT`/`KEY_ENTER`
only set the `btnPress` flag; `REL_X`/`REL_Y` accumulate into the decoder
state, resetting it first when more than 100 ms passed since the last raw
rotary event. -/
def processOne (ls : LoopState) (ev : RawEvent) : LoopState :=
  if ev.type = 0 then ls
  else if ev.type = EV_KEY then
    if ev.code = BTN_LEFT ∧ ev.value = 1 then
      { ls with btnPress := true, eventCount := ls.eventCount + 1 }
    else if ev.value = 1 then
      if ev.code = KEY_LEFT then
        { ls with outs := ls.outs ++ [OutEvent.rotate (-5)],
                  eventCount := ls.eventCount + 1 }
      else if ev.code = KEY_RIGHT then
        { ls with outs := ls.outs ++ [OutEvent.rotate 5],
                  eventCount := ls.eventCount + 1 }
      else if ev.code = KEY_UP then
        { ls with outs := ls.outs ++ [OutEvent.rotate (-5)],
                  eventCount := ls.eventCount + 1 }
      else if ev.code = KEY_DOWN then
        { ls with outs := ls.outs ++ [OutEvent.rotate 5],
                  eventCount := ls.eventCount + 1 }
      else if ev.code = KEY_ENTER then
        { ls with btnPress := true, eventCount := ls.eventCount + 1 }
      else ls
    else ls
  else if ev.type = EV_REL ∧ ev.code = REL_X then
    let td := timeDiffMs ls.st.lastEventTime ev.now
    let st1 := { ls.st with lastEventTime := ev.now }
    let st2 := if td > 100 then
        { st1 with pairedEventCount := 0, totalRelX := 0, totalRelY := 0 }
      else st1
    let st3 := { st2 with totalRelX := st2.totalRelX + ev.value,
                          pairedEventCount := st2.pairedEventCount + 1 }
    { ls with st := st3, pendingMovement := true,
              eventCount := ls.eventCount + 1 }
  else if ev.type = EV_REL ∧ ev.code = REL_Y then
    let td := timeDiffMs ls.st.lastEventTime ev.now
    let st1 := { ls.st with lastEventTime := ev.now }
    let st2 := if td > 100 then
        { st1 with pairedEventCount := 0, totalRelX := 0, totalRelY := 0 }
      else st1
    let st3 := { st2 with totalRelY := st2.totalRelY + ev.value,
                          pairedEventCount := st2.pairedEventCount + 1 }
    { ls with st := st3, pendingVerticalMovement := true,
              eventCount := ls.eventCount + 1 }
  else ls

/-- The read loop: consume available raw events while
`eventCount < MAX_EVENTS_PER_ITERATION`; a surplus is read and discarded. -/
def readLoop (ls : LoopState) : List RawEvent → LoopState
  | [] => ls
  | ev :: rest =>
    if ls.eventCount < MAX_EVENTS_PER_ITERATION then
      readLoop (processOne ls ev) rest
    else ls

/-- The elapsed-time expression computed after the read loop
(`processEvents`, the delivery check).  The seconds term of the source
subtracts `lastEventTime.tv_sec` from itself, so only the microsecond
difference contributes. -/
def timeSinceLastMs (st : InputState) (now : Timeval) : Int :=
  (st.lastEventTime.sec - st.lastEventTime.sec) * 1000 +
    Int.tdiv (now.usec - st.lastEventTime.usec) 1000

/-- The accumulated-movement delivery at the end of `processEvents`:
when a rotary event is pending and (`pairedEventCount ≥ 2` or the elapsed
time exceeds `EVENT_PROCESS_THRESHOLD`), the rotation callback is invoked
with `totalRelX` when nonzero, then with `-totalRelY` when nonzero, and the
accumulators are reset. -/
def deliverMovement (st : InputState)
    (pendingMovement pendingVerticalMovement : Bool) (now : Timeval) :
    InputState × List OutEvent :=
  if (pendingMovement || pendingVerticalMovement) = true ∧
      (2 ≤ st.pairedEventCount ∨
        timeSinceLastMs st now > EVENT_PROCESS_THRESHOLD) then
    ({ st with pairedEventCount := 0, totalRelX := 0, totalRelY := 0 },
      (if st.totalRelX ≠ 0 then [OutEvent.rotate st.totalRelX] else []) ++
        (if st.totalRelY ≠ 0 then [OutEvent.rotate (-st.totalRelY)] else []))
  else (st, [])

/-- Model of `InputDevice::processEvents`: run the read loop over the available raw
events, invoke the button callback once if a press was seen, then run the
accumulated-movement delivery.  Returns the new decoder state, the callback
invocations in order, and the event count. -/
def processEvents (st : InputState) (events : List RawEvent) (now : Timeval) :
    InputState × List OutEvent × Nat :=
  let ls := readLoop ⟨st, 0, false, false, false, []⟩ events
  let btnOuts := if ls.btnPress then [OutEvent.button] else []
  let dm :=
    deliverMovement ls.st ls.pendingMovement ls.pendingVerticalMovement now
  (dm.1, ls.outs ++ btnOuts ++ dm.2, ls.eventCount)

/-! DisplayDevice: serial-framed backend

Each display operation of `DisplayDevice` builds one frame `[CMD, …args]`
and passes it to a single `sendCommand` call; we model an operation as the
list of write bursts it performs (each burst one byte list). -/

def serialClearWrites : List (List Nat) := [[CMD_CLEAR]]

def serialDrawTextWrites (x y : Int) (text : List Nat) : List (List Nat) :=
  [[CMD_DRAW_TEXT, u8 x, u8 y] ++ text]

def serialSetCursorWrites (x y : Int) : List (List Nat) :=
  [[CMD_SET_CURSOR, u8 x, u8 y]]

def serialSetInvertedWrites (inverted : Bool) : List (List Nat) :=
  [[CMD_INVERT, if inverted then 1 else 0]]

def serialSetBrightnessWrites (brightness : Int) : List (List Nat) :=
  [[CMD_BRIGHTNESS, u8 brightness]]

def serialDrawProgressBarWrites (x y width height percentage : Int) :
    List (List Nat) :=
  [[CMD_PROGRESS_BAR, u8 x, u8 y, u8 width, u8 height, u8 percentage]]

def serialSetPowerWrites (powerOn : Bool) : List (List Nat) :=
  [[CMD_POWER_MODE, if powerOn then 1 else 0]]

/-! I2CDisplayDevice: SSD1306 I²C backend -/

def SSD1306_SET_CONTRAST : Nat := 0x81
def SSD1306_COLUMN_ADDR : Nat := 0x21
def SSD1306_PAGE_ADDR : Nat := 0x22
def DISPLAY_WIDTH : Nat := 128
def DISPLAY_HEIGHT : Nat := 64
def DISPLAY_PAGES : Nat := 8

/-- One I²C write burst: `writeCommand` sends `[0x00, b]`, `writeData`
sends `0x40 :: bytes`. -/
inductive I2CWrite
  | command (b : Nat)
  | data (bytes : List Nat)
deriving Repr, DecidableEq

/-- Model of `I2CDisplayDevice::setBrightness`: clamp to `0..=255`, then issue the
contrast command and its argument. -/
def i2cSetBrightnessContrast (brightness : Int) : Nat :=
  if brightness > 255 then 255 else if brightness < 0 then 0
  else brightness.toNat

def i2cSetBrightnessWrites (brightness : Int) : List I2CWrite :=
  [I2CWrite.command SSD1306_SET_CONTRAST,
   I2CWrite.command (i2cSetBrightnessContrast brightness)]

/-- Framebuffer and text cursor of `I2CDisplayDevice` (`m_displayBuffer`,
`m_cursorX`, `m_cursorY`; the cursors are `uint8_t`). -/
structure I2CState where
  buffer : List Nat
  cursorX : Nat
  cursorY : Nat
deriving Repr, DecidableEq

/-- Model of `I2CDisplayDevice::updateDisplay`: clamp the region, then per page set
the page/column address window and send the framebuffer slice. -/
def updateDisplay (buffer : List Nat) (startPage endPage startCol endCol : Int) :
    List I2CWrite :=
  let sp := if startPage < 0 then 0 else startPage
  let ep := if endPage ≥ (DISPLAY_PAGES : Int) then (DISPLAY_PAGES : Int) - 1
    else endPage
  let sc := if startCol < 0 then 0 else startCol
  let ec := if endCol ≥ (DISPLAY_WIDTH : Int) then (DISPLAY_WIDTH : Int) - 1
    else endCol
  (((List.range (ep - sp + 1).toNat).map (fun i => sp + (i : Int))).map
    (fun page =>
      [I2CWrite.command SSD1306_PAGE_ADDR, I2CWrite.command (u8 page),
       I2CWrite.command (u8 page), I2CWrite.command SSD1306_COLUMN_ADDR,
       I2CWrite.command (u8 sc), I2CWrite.command (u8 ec)] ++
      (let dataStart := page * (DISPLAY_WIDTH : Int) + sc
       let dataLength := ec - sc + 1
       if 0 ≤ dataStart ∧ dataStart + dataLength ≤ (buffer.length : Int) then
         [I2CWrite.data ((buffer.drop dataStart.toNat).take dataLength.toNat)]
       else []))).flatten

/-- Model of `I2CDisplayDevice::drawCharacter`, parameterized by the glyph table
`font` (`Font8x8::font8x8_basic`, code → row → byte; its initializer is not
part of the sources here).  Non-ASCII codes fall back to `'?'`; when the
glyph does not fit (`page ≥ DISPLAY_PAGES` or `col > DISPLAY_WIDTH - 8`) the
function returns immediately; otherwise the glyph is transposed into 8
column bytes, written into the framebuffer, a partial update is issued, and
the cursor advances by 8 pixels with wrap-around. -/
def drawCharacter (font : Nat → Nat → Nat) (st : I2CState) (c : Int) :
    I2CState × List I2CWrite :=
  let c := if c < 0 ∨ c > 127 then 63 else c
  let page := st.cursorY / 8
  let col := st.cursorX
  if page ≥ DISPLAY_PAGES ∨ col > DISPLAY_WIDTH - 8 then (st, [])
  else
    let transposed : Nat → Nat := fun i =>
      (List.range 8).foldl (fun acc srcRow =>
        if Nat.testBit (font (u8 (c : Int)) srcRow) i then
          acc + 2 ^ srcRow
        else acc) 0
    let buf := (List.range 8).foldl (fun b i =>
      if col + i < DISPLAY_WIDTH then
        let pos := page * DISPLAY_WIDTH + (col + i)
        if pos < b.length then b.set pos (transposed i) else b
      else b) st.buffer
    let writes := updateDisplay buf (page : Int) (page : Int) (col : Int)
      ((col : Int) + 7)
    let x1 := (col + 8) % 256
    let st' :=
      if x1 > DISPLAY_WIDTH - 8 then
        let y1 := (st.cursorY + 8) % 256
        { buffer := buf, cursorX := 0,
          cursorY := if y1 ≥ DISPLAY_HEIGHT then 0 else y1 }
      else { buffer := buf, cursorX := x1, cursorY := st.cursorY }
    (st', writes)

/-! GenericListScreen: list navigation and scrolling -/

/-- The rotation handler of `GenericListScreen::handleInput`: move the
selection one step, clamped to the list. -/
def listMoveSelection (direction selected total : Int) : Int :=
  if direction < 0 then
    if selected > 0 then selected - 1 else selected
  else
    if selected < total - 1 then selected + 1 else selected

/-- The scrolling update of `GenericListScreen::handleInput` (the same rule
is used by `ThroughputClientScreen`): keep the selection inside the visible
window. -/
def listUpdateScroll (selected firstVisible maxVisible : Int) : Int :=
  if selected < firstVisible then selected
  else if selected ≥ firstVisible + maxVisible then
    selected - maxVisible + 1
  else firstVisible

/-- One rotation step on the `(selected, firstVisible)` pair, with
`m_maxVisibleItems = 6`. -/
def listRotateStep (direction total : Int) (p : Int × Int) : Int × Int :=
  let sel := listMoveSelection direction p.1 total
  (sel, listUpdateScroll sel p.2 6)

/-- The `(selected, firstVisible)` pairs after each of `steps` rotation
steps. -/
def listScrollTrace (direction total : Int) (steps : Nat) (p : Int × Int) :
    List (Int × Int) :=
  match steps with
  | 0 => []
  | n + 1 =>
    let next := listRotateStep direction total p
    next :: listScrollTrace direction total n next

/-- Modelled from the spec: the scrolling formula
`first_visible = max(0, min(selected, total - MAX_VISIBLE))` stated in the
scrolling contract. -/
def specFirstVisible (selected total maxVisible : Int) : Int :=
  max 0 (min selected (total - maxVisible))

/-! GenericListScreen: async job state machine and log parsing -/

inductive AsyncStateKind
  | IDLE
  | RUNNING
  | COMPLETED
  | FAILED
  | TIMEOUT
deriving Repr, DecidableEq

/-- The async-job fields of `GenericListScreen` that the job state machine
touches. -/
structure AsyncJob where
  state : AsyncStateKind
  pid : Int
  timeout : Int
  waitingForUser : Bool
  resultMessage : String
deriving Repr, DecidableEq

/-- The member initializers: `m_asyncState = IDLE`, `m_asyncPid = -1`,
`m_asyncTimeout = 0`, `m_asyncWaitingForUser = false`. -/
def initialAsyncJob : AsyncJob := ⟨AsyncStateKind.IDLE, -1, 0, false, ""⟩

/-- Whether `pat` is an initial segment of `s`. -/
def listStartsWith : List Char → List Char → Bool
  | [], _ => true
  | _ :: _, [] => false
  | a :: as, b :: bs => a == b && listStartsWith as bs

/-- Whether `pat` occurs in `s` at some position, as `std::string::find(pat) != npos`
decides it. -/
def hasSub (pat : List Char) : List Char → Bool
  | [] => pat.isEmpty
  | c :: rest => listStartsWith pat (c :: rest) || hasSub pat rest

def hasSubstr (pat s : String) : Bool := hasSub pat.toList s.toList

/-- The two flags carried through the log scan of
`GenericListScreen::parseLogForCompletion`. -/
structure ScanFlags where
  foundSuccess : Bool
  foundError : Bool
deriving Repr, DecidableEq

/-- One iteration of the `getline` loop of `parseLogForCompletion`. -/
def scanLine (f : ScanFlags) (line : String) : ScanFlags :=
  let f1 := if hasSubstr "[SUCCESS]" line then
    { f with foundSuccess := true } else f
  let f2 := if hasSubstr "[ERROR]" line then
    { f1 with foundError := true } else f1
  let f3 := if hasSubstr "Flash verification successful" line ||
      hasSubstr "Optionbyte verification successful" line then
    { f2 with foundSuccess := true } else f2
  if hasSubstr "Error" line || hasSubstr "Failed" line ||
      hasSubstr "failed" line then
    { f3 with foundError := true } else f3

/-- The log file as `parseLogForCompletion` sees it: no configured path,
a path that cannot be opened, or the file's lines. -/
inductive LogFile
  | noPath
  | openFail
  | fileLines (ls : List String)
deriving Repr, DecidableEq

/-- Model of `GenericListScreen::parseLogForCompletion`: success when a success
pattern was found and no error pattern was. -/
def parseLogForCompletion : LogFile → Bool
  | .noPath => true
  | .openFail => false
  | .fileLines ls =>
    let f := ls.foldl scanLine ⟨false, false⟩
    f.foundSuccess && !f.foundError

/-- A line matching one of the success patterns of
`parseLogForCompletion`. -/
def successLine (line : String) : Bool :=
  hasSubstr "[SUCCESS]" line ||
    hasSubstr "Flash verification successful" line ||
    hasSubstr "Optionbyte verification successful" line

/-- A line matching one of the error patterns of `parseLogForCompletion`
(including the lowercase `failed`). -/
def errorLine (line : String) : Bool :=
  hasSubstr "[ERROR]" line || hasSubstr "Error" line ||
    hasSubstr "Failed" line || hasSubstr "failed" line

/-- Modelled from the spec: the error patterns the spec lists for log
parsing — `[ERROR]`, `Error`, `Failed` (without the lowercase `failed`). -/
def claimErrorLine (line : String) : Bool :=
  hasSubstr "[ERROR]" line || hasSubstr "Error" line ||
    hasSubstr "Failed" line

/-- Model of `GenericListScreen::startAsyncProcess` from the parent's point of view:
`forkRes` is what `fork()` returned (`m_asyncPid` is assigned it first). -/
def startAsyncProcess (job : AsyncJob) (forkRes timeout : Int) : AsyncJob :=
  let j := { job with pid := forkRes }
  if forkRes = 0 then j
  else if forkRes > 0 then
    { j with state := AsyncStateKind.RUNNING, timeout := timeout,
             waitingForUser := false }
  else
    { j with state := AsyncStateKind.FAILED,
             resultMessage := "Failed to start process",
             waitingForUser := true }

/-- Model of `GenericListScreen::checkAsyncCompletion`: `waitRes` is the result of
`waitpid(m_asyncPid, …, WNOHANG)` (the pid when the child exited, `0` while
it runs, `-1` on error). -/
def checkAsyncCompletion (job : AsyncJob) (waitRes : Int) (log : LogFile) :
    AsyncJob :=
  if job.pid ≤ 0 ∨ job.state ≠ AsyncStateKind.RUNNING then job
  else if waitRes = job.pid then
    if parseLogForCompletion log then
      { job with state := AsyncStateKind.COMPLETED, waitingForUser := true,
                 pid := -1 }
    else
      { job with state := AsyncStateKind.FAILED,
                 resultMessage := "Update failed!", waitingForUser := true,
                 pid := -1 }
  else if waitRes = -1 then
    { job with state := AsyncStateKind.FAILED,
               resultMessage := "Update status error",
               waitingForUser := true, pid := -1 }
  else job

/-- The system calls performed while terminating the async child. -/
inductive SysAction
  | sigterm (pid : Int)
  | sleepUs (n : Nat)
  | waitpidNohang (pid : Int)
  | sigkill (pid : Int)
  | waitpidBlock (pid : Int)
deriving Repr, DecidableEq

/-- Model of `GenericListScreen::killAsyncProcess`: SIGTERM, a 1 s sleep, a
non-blocking `waitpid`; when the child is still alive, SIGKILL followed by a
blocking `waitpid`.  `stillAlive` tells whether the non-blocking `waitpid`
returned 0. -/
def killAsyncProcess (job : AsyncJob) (stillAlive : Bool) :
    AsyncJob × List SysAction :=
  if job.pid > 0 then
    ({ job with pid := -1 },
      [SysAction.sigterm job.pid, SysAction.sleepUs 1000000,
       SysAction.waitpidNohang job.pid] ++
        (if stillAlive then
          [SysAction.sigkill job.pid, SysAction.waitpidBlock job.pid]
         else []))
  else (job, [])

/-- Model of `GenericListScreen::updateAsyncProgress`: poll for completion, then
enforce the timeout (`elapsed` is the whole-second duration since the job
started). -/
def updateAsyncProgress (job : AsyncJob) (waitRes : Int) (log : LogFile)
    (elapsed : Int) (stillAlive : Bool) : AsyncJob × List SysAction :=
  let j := checkAsyncCompletion job waitRes log
  if elapsed ≥ j.timeout ∧ j.state = AsyncStateKind.RUNNING then
    let ka := killAsyncProcess j stillAlive
    ({ ka.1 with state := AsyncStateKind.TIMEOUT,
                 resultMessage := "Action timed-out\nUpate failed!",
                 waitingForUser := true }, ka.2)
  else (j, [])

/-- The user-acknowledgement branch of `GenericListScreen::handleInput`:
any input dismisses a completed/failed/timed-out result and returns to the
list. -/
def dismissAsyncResult (job : AsyncJob) (inputReceived : Bool) : AsyncJob :=
  if job.waitingForUser = true ∧
      (job.state = AsyncStateKind.COMPLETED ∨
        job.state = AsyncStateKind.FAILED ∨
        job.state = AsyncStateKind.TIMEOUT) ∧
      inputReceived = true then
    { job with state := AsyncStateKind.IDLE, waitingForUser := false }
  else job

/-- The `FAILED`/`TIMEOUT` branch of
`GenericListScreen::renderAsyncProgress`: the result message is split at its
first newline onto rows 0 and 8, followed by the dismissal prompt.  Each
entry is `(x, y, text)` of one `drawText` call. -/
def renderAsyncFailTexts (msg : List Char) : List (Nat × Nat × List Char) :=
  let firstLine := msg.takeWhile (fun c => c ≠ Char.ofNat 10)
  let rest := msg.dropWhile (fun c => c ≠ Char.ofNat 10)
  (if rest.isEmpty then [(0, 0, msg)]
   else [(0, 0, firstLine), (0, 8, rest.tail)]) ++
    [(0, 24, "Press button".toList), (0, 32, "to continue".toList)]

/-- The invariant claimed for the async job state:
a stored child pid exists exactly while the job is running. -/
def asyncPidInvariant (job : AsyncJob) : Prop :=
  0 < job.pid ↔ job.state = AsyncStateKind.RUNNING

/-! Helper lemmas -/

theorem u8_coe (x : Nat) (h : x < 256) : u8 (x : Int) = x := by
  unfold u8
  omega

theorem scanLine_spec (f : ScanFlags) (l : String) :
    scanLine f l =
      ⟨f.foundSuccess || successLine l, f.foundError || errorLine l⟩ := by
  unfold scanLine successLine errorLine
  cases h1 : hasSubstr "[SUCCESS]" l <;>
  cases h2 : hasSubstr "[ERROR]" l <;>
  cases h3 : hasSubstr "Flash verification successful" l <;>
  cases h4 : hasSubstr "Optionbyte verification successful" l <;>
  cases h5 : hasSubstr "Error" l <;>
  cases h6 : hasSubstr "Failed" l <;>
  cases h7 : hasSubstr "failed" l <;>
  simp [h1, h2, h3, h4, h5, h6, h7]

theorem foldl_scanLine (ls : List String) (f : ScanFlags) :
    ls.foldl scanLine f =
      ⟨f.foundSuccess || ls.any successLine,
       f.foundError || ls.any errorLine⟩ := by
  induction ls generalizing f with
  | nil => simp
  | cons l t ih => simp [List.foldl_cons, scanLine_spec, ih, Bool.or_assoc]

theorem checkAsyncCompletion_invariant (job : AsyncJob) (waitRes : Int)
    (log : LogFile) (hinv : asyncPidInvariant job) :
    asyncPidInvariant (checkAsyncCompletion job waitRes log) := by
  unfold asyncPidInvariant at *
  unfold checkAsyncCompletion
  split_ifs <;> simp_all

/-! Claim C1 -/

/-- C1, counterexample: when both axes have accumulated (one raw
`REL_X/+1` and one raw `REL_Y/+1`, so `paired_count = 2`), the drain invokes
the rotation callback twice — `Rotate(total_rel_x)` then
`Rotate(-total_rel_y)` — not once with value
`total_rel_x + (-total_rel_y)` (which would be `Rotate(0)` here). -/
theorem C1_counterexample :
    (processEvents initInputState
        [⟨EV_REL, REL_X, 1, ⟨1000, 0⟩⟩, ⟨EV_REL, REL_Y, 1, ⟨1000, 0⟩⟩]
        ⟨1000, 100⟩).2.1 =
      [OutEvent.rotate 1, OutEvent.rotate (-1)] ∧
    [OutEvent.rotate 1, OutEvent.rotate (-1)] ≠
      [OutEvent.rotate (1 + -1)] := by
  exact ⟨by decide, by decide⟩

/-- C1, amended: when the delivery condition holds and only one axis has a
nonzero accumulator, exactly one `Rotate` is delivered and its value equals
`total_rel_x + (-total_rel_y)`; in particular two raw `EV_REL/REL_X/+1`
events 5 ms apart yield exactly one `Rotate(+2)` on the next drain.  (With
both axes nonzero the source delivers two `Rotate` events instead.) -/
theorem C1_single_axis_rotate :
    (processEvents initInputState
        [⟨EV_REL, REL_X, 1, ⟨1000, 0⟩⟩, ⟨EV_REL, REL_X, 1, ⟨1000, 5000⟩⟩]
        ⟨1000, 6000⟩).2.1 = [OutEvent.rotate 2] ∧
    (∀ (st : InputState) (pm pv : Bool) (now : Timeval),
      (pm || pv) = true →
      (2 ≤ st.pairedEventCount ∨
        timeSinceLastMs st now > EVENT_PROCESS_THRESHOLD) →
      st.totalRelY = 0 → st.totalRelX ≠ 0 →
      (deliverMovement st pm pv now).2 =
        [OutEvent.rotate (st.totalRelX + -st.totalRelY)]) ∧
    (∀ (st : InputState) (pm pv : Bool) (now : Timeval),
      (pm || pv) = true →
      (2 ≤ st.pairedEventCount ∨
        timeSinceLastMs st now > EVENT_PROCESS_THRESHOLD) →
      st.totalRelX = 0 → st.totalRelY ≠ 0 →
      (deliverMovement st pm pv now).2 =
        [OutEvent.rotate (st.totalRelX + -st.totalRelY)]) := by
  refine ⟨by decide, ?_, ?_⟩
  · intro st pm pv now hp hc hy hx
    simp only [deliverMovement, if_pos (And.intro hp hc)]
    simp [hx, hy]
  · intro st pm pv now hp hc hx hy
    simp only [deliverMovement, if_pos (And.intro hp hc)]
    simp [hx, hy]

/-- C1, witness for `C1_single_axis_rotate` at a concrete accumulator
state. -/
theorem C1_witness :
    (deliverMovement ⟨3, 0, 2, ⟨1000, 0⟩⟩ true false ⟨1000, 0⟩).2 =
      [OutEvent.rotate ((3 : Int) + -0)] :=
  C1_single_axis_rotate.2.1 ⟨3, 0, 2, ⟨1000, 0⟩⟩ true false ⟨1000, 0⟩
    (by decide) (Or.inl (by decide)) rfl (by decide)

/-! Claim C2 -/

/-- C2, counterexample: a decoder state holding an accumulated value whose
last raw rotary event lies more than 30 ms in the past is NOT delivered by a
drain call that reads no new raw event: the state is returned unchanged
(`paired_count` still 1, `total_rel_x` still 1) and no callback runs. -/
theorem C2_counterexample :
    timeSinceLastMs ⟨1, 0, 1, ⟨100, 0⟩⟩ ⟨100, 50000⟩ >
      EVENT_PROCESS_THRESHOLD ∧
    processEvents ⟨1, 0, 1, ⟨100, 0⟩⟩ [] ⟨100, 50000⟩ =
      (⟨1, 0, 1, ⟨100, 0⟩⟩, [], 0) := by
  exact ⟨by decide, by decide⟩

/-- C2, amended: accumulated movement is delivered and the accumulators
reset only in a drain call that itself read at least one raw rotary event
(the pending flags): a drain that reads nothing leaves the decoder state
untouched and delivers nothing, even when `paired_count ≥ 2` or more than
30 ms have elapsed; when a rotary event is pending and the condition holds,
the accumulators are reset and the accumulated values are delivered. -/
theorem C2_delivery_needs_pending :
    (∀ (st : InputState) (now : Timeval),
      processEvents st [] now = (st, [], 0)) ∧
    (∀ (st : InputState) (pm pv : Bool) (now : Timeval),
      (pm || pv) = true →
      (2 ≤ st.pairedEventCount ∨
        timeSinceLastMs st now > EVENT_PROCESS_THRESHOLD) →
      (deliverMovement st pm pv now).1.totalRelX = 0 ∧
      (deliverMovement st pm pv now).1.totalRelY = 0 ∧
      (deliverMovement st pm pv now).1.pairedEventCount = 0 ∧
      (st.totalRelX ≠ 0 →
        OutEvent.rotate st.totalRelX ∈ (deliverMovement st pm pv now).2) ∧
      (st.totalRelY ≠ 0 →
        OutEvent.rotate (-st.totalRelY) ∈ (deliverMovement st pm pv now).2)) := by
  constructor
  · intro st now
    simp [processEvents, readLoop, deliverMovement]
  · intro st pm pv now hp hc
    simp only [deliverMovement, if_pos (And.intro hp hc)]
    refine ⟨by trivial, by trivial, by trivial, ?_, ?_⟩
    · intro hx
      simp [hx]
    · intro hy
      simp [hy]

/-- C2, witness for `C2_delivery_needs_pending` at a concrete accumulator
state. -/
theorem C2_witness :
    OutEvent.rotate 2 ∈ (deliverMovement ⟨2, 3, 2, ⟨5, 0⟩⟩ true false ⟨5, 0⟩).2 :=
  (C2_delivery_needs_pending.2 ⟨2, 3, 2, ⟨5, 0⟩⟩ true false ⟨5, 0⟩
    (by decide) (Or.inl (by decide))).2.2.2.1 (by decide)

/-! Claim C4 -/

/-- C4, counterexample: a raw `KEY_ENTER` key-down read before a raw
`KEY_LEFT` key-down is delivered AFTER the `Rotate(-5)` of the `KEY_LEFT`:
keyboard rotations are emitted inside the read loop while the button press
is only flagged and delivered after the loop, so the delivery order is not
the read order. -/
theorem C4_counterexample :
    (processEvents initInputState
        [⟨EV_KEY, KEY_ENTER, 1, ⟨1000, 0⟩⟩, ⟨EV_KEY, KEY_LEFT, 1, ⟨1000, 0⟩⟩]
        ⟨1000, 100⟩).2.1 = [OutEvent.rotate (-5), OutEvent.button] ∧
    [OutEvent.rotate (-5), OutEvent.button] ≠
      [OutEvent.button, OutEvent.rotate (-5)] := by
  exact ⟨by decide, by decide⟩

/-- C4, amended: within one drain, the handler receives first the keyboard
rotations in the order they were read, then a single `Button` if any press
was read, and finally the accumulated rotary movement; hence a button press
read before a keyboard rotation is delivered after it, as in the concrete
`KEY_ENTER`-then-`KEY_LEFT` drain. -/
theorem C4_delivery_order :
    (∀ (st : InputState) (events : List RawEvent) (now : Timeval),
      (processEvents st events now).2.1 =
        (readLoop ⟨st, 0, false, false, false, []⟩ events).outs ++
          (if (readLoop ⟨st, 0, false, false, false, []⟩ events).btnPress then
            [OutEvent.button] else []) ++
          (deliverMovement
            (readLoop ⟨st, 0, false, false, false, []⟩ events).st
            (readLoop ⟨st, 0, false, false, false, []⟩ events).pendingMovement
            (readLoop ⟨st, 0, false, false, false, []⟩ events).pendingVerticalMovement
            now).2) ∧
    (processEvents initInputState
        [⟨EV_KEY, KEY_ENTER, 1, ⟨1000, 0⟩⟩, ⟨EV_KEY, KEY_LEFT, 1, ⟨1000, 0⟩⟩]
        ⟨1000, 100⟩).2.1 = [OutEvent.rotate (-5), OutEvent.button] := by
  refine ⟨?_, by decide⟩
  intro st events now
  rfl

/-! Claim C3 -/

/-- C3, counterexample: the serial backend's `setBrightness` does not clamp:
it writes `static_cast<uint8_t>(v)`, so `setBrightness(-5)` writes byte 251
(not 0) and `setBrightness(999)` writes byte 231 (not 255). -/
theorem C3_counterexample :
    serialSetBrightnessWrites (-5) = [[CMD_BRIGHTNESS, 251]] ∧ (251 : Nat) ≠ 0 ∧
    serialSetBrightnessWrites 999 = [[CMD_BRIGHTNESS, 231]] ∧
    (231 : Nat) ≠ 255 := by
  exact ⟨by decide, by decide, by decide, by decide⟩

/-- C3, amended: only the I²C backend clamps the brightness to `0..=255`
(so −5 → 0 and 999 → 255); the serial backend writes the value reduced
modulo 256 (so −5 → 251 and 999 → 231), and the two agree for in-range
values. -/
theorem C3_brightness_clamp :
    (∀ v : Int, 255 < v → i2cSetBrightnessContrast v = 255) ∧
    (∀ v : Int, v < 0 → i2cSetBrightnessContrast v = 0) ∧
    (∀ v : Int, 0 ≤ v → v ≤ 255 →
      i2cSetBrightnessContrast v = v.toNat ∧ u8 v = v.toNat) ∧
    (∀ v : Int, serialSetBrightnessWrites v =
      [[CMD_BRIGHTNESS, (v % 256).toNat]]) ∧
    i2cSetBrightnessWrites (-5) =
      [I2CWrite.command SSD1306_SET_CONTRAST, I2CWrite.command 0] ∧
    i2cSetBrightnessWrites 999 =
      [I2CWrite.command SSD1306_SET_CONTRAST, I2CWrite.command 255] := by
  refine ⟨?_, ?_, ?_, ?_, by decide, by decide⟩
  · intro v h
    simp only [i2cSetBrightnessContrast, if_pos h]
  · intro v h
    have h' : ¬ v > 255 := by omega
    simp only [i2cSetBrightnessContrast, if_neg h', if_pos h]
  · intro v h0 h255
    refine ⟨?_, ?_⟩
    · have h1 : ¬ v > 255 := by omega
      have h2 : ¬ v < 0 := by omega
      simp only [i2cSetBrightnessContrast, if_neg h1, if_neg h2]
    · unfold u8
      omega
  · intro v
    rfl

/-- C3, witness for `C3_brightness_clamp` at the in-range value 128. -/
theorem C3_witness :
    i2cSetBrightnessContrast 128 = (128 : Int).toNat ∧
      u8 128 = (128 : Int).toNat :=
  C3_brightness_clamp.2.2.1 128 (by decide) (by decide)

/-! Claim C5 -/

/-- C5, counterexample: with 7 items and the selection moving from item 0
down to item 1, the code keeps `first_visible = 0` (the selection is still
inside the window) while the spec formula
`max(0, min(selected, total - MAX_VISIBLE))` demands `first_visible = 1`. -/
theorem C5_counterexample :
    listRotateStep 1 7 (0, 0) = (1, 0) ∧
    (listRotateStep 1 7 (0, 0)).2 ≠
      specFirstVisible (listRotateStep 1 7 (0, 0)).1 7 6 := by
  exact ⟨by decide, by decide⟩

/-- C5, amended: the code scrolls with a sliding window — `first_visible`
only changes when the new selection leaves the window, and afterwards the
selection always lies inside `[first_visible, first_visible + 6)`; with 7
items, moving the selection from item 0 down to item 6 changes
`first_visible` exactly once, from 0 to 1, at the final step. -/
theorem C5_sliding_window :
    (∀ sel fv : Int,
      listUpdateScroll sel fv 6 ≤ sel ∧ sel < listUpdateScroll sel fv 6 + 6) ∧
    (listScrollTrace 1 7 6 (0, 0)).map Prod.fst = [1, 2, 3, 4, 5, 6] ∧
    (listScrollTrace 1 7 6 (0, 0)).map Prod.snd = [0, 0, 0, 0, 0, 1] := by
  refine ⟨?_, by decide, by decide⟩
  intro sel fv
  unfold listUpdateScroll
  split_ifs <;> omega

/-! Claim C6 -/

/-- C6: every serial-backend display operation performs exactly one write
whose bytes are the fixed frame of its command: `CLEAR = [0x01]`,
`SET_CURSOR = [0x03,x,y]`, `INVERT = [0x04,0/1]`, `BRIGHTNESS = [0x05,v]`,
`PROGRESS_BAR = [0x06,x,y,w,h,pct]`, `POWER_MODE = [0x07,0/1]`, and
`DRAW_TEXT = [0x02,x,y]` followed by the raw string bytes with no length
prefix and no terminator (3 + len bytes). -/
theorem C6_serial_frames :
    ∀ (x y w h pct v : Nat) (text : List Nat),
      x < 256 → y < 256 → w < 256 → h < 256 → pct < 256 → v < 256 →
      serialClearWrites = [[0x01]] ∧
      serialDrawTextWrites (x : Int) (y : Int) text = [[0x02, x, y] ++ text] ∧
      ([0x02, x, y] ++ text).length = 3 + text.length ∧
      serialSetCursorWrites (x : Int) (y : Int) = [[0x03, x, y]] ∧
      serialSetInvertedWrites true = [[0x04, 1]] ∧
      serialSetInvertedWrites false = [[0x04, 0]] ∧
      serialSetBrightnessWrites (v : Int) = [[0x05, v]] ∧
      serialDrawProgressBarWrites (x : Int) (y : Int) (w : Int) (h : Int)
          (pct : Int) = [[0x06, x, y, w, h, pct]] ∧
      serialSetPowerWrites true = [[0x07, 1]] ∧
      serialSetPowerWrites false = [[0x07, 0]] := by
  intro x y w h pct v text hx hy hw hh hpct hv
  refine ⟨rfl, ?_, ?_, ?_, rfl, rfl, ?_, ?_, rfl, rfl⟩
  · simp [serialDrawTextWrites, CMD_DRAW_TEXT, u8_coe x hx, u8_coe y hy]
  · simp [List.length_append]
    omega
  · simp [serialSetCursorWrites, CMD_SET_CURSOR, u8_coe x hx, u8_coe y hy]
  · simp [serialSetBrightnessWrites, CMD_BRIGHTNESS, u8_coe v hv]
  · simp [serialDrawProgressBarWrites, CMD_PROGRESS_BAR, u8_coe x hx,
      u8_coe y hy, u8_coe w hw, u8_coe h hh, u8_coe pct hpct]

/-- C6, witness for `C6_serial_frames` at concrete in-range arguments. -/
theorem C6_witness :
    serialClearWrites = [[0x01]] ∧
    serialDrawTextWrites ((10 : Nat) : Int) ((20 : Nat) : Int) [72, 73] =
      [[0x02, 10, 20] ++ [72, 73]] ∧
    ([0x02, (10 : Nat), 20] ++ [72, 73]).length = 3 + [72, 73].length ∧
    serialSetCursorWrites ((10 : Nat) : Int) ((20 : Nat) : Int) =
      [[0x03, 10, 20]] ∧
    serialSetInvertedWrites true = [[0x04, 1]] ∧
    serialSetInvertedWrites false = [[0x04, 0]] ∧
    serialSetBrightnessWrites ((128 : Nat) : Int) = [[0x05, 128]] ∧
    serialDrawProgressBarWrites ((10 : Nat) : Int) ((20 : Nat) : Int)
        ((30 : Nat) : Int) ((8 : Nat) : Int) ((50 : Nat) : Int) =
      [[0x06, 10, 20, 30, 8, 50]] ∧
    serialSetPowerWrites true = [[0x07, 1]] ∧
    serialSetPowerWrites false = [[0x07, 0]] :=
  C6_serial_frames 10 20 30 8 50 128 [72, 73] (by decide) (by decide)
    (by decide) (by decide) (by decide) (by decide)

/-! Claim C7 -/

/-- C7, counterexample: a log containing `[SUCCESS]` and a line with the
lowercase word `failed` — matching none of the claim's error patterns
`[ERROR]`/`Error`/`Failed` — is still classified as FAILED with message
"Update failed!", because the source also scans for lowercase `failed`. -/
theorem C7_counterexample :
    checkAsyncCompletion ⟨AsyncStateKind.RUNNING, 7, 300, false, ""⟩ 7
        (LogFile.fileLines ["[SUCCESS]", "nothing failed"]) =
      ⟨AsyncStateKind.FAILED, -1, 300, true, "Update failed!"⟩ ∧
    (["[SUCCESS]", "nothing failed"].any successLine) = true ∧
    (["[SUCCESS]", "nothing failed"].any claimErrorLine) = false := by
  exact ⟨by decide, by decide, by decide⟩

/-- C7, amended: when the running job's child has exited (the non-blocking
`waitpid` returns its pid), the job becomes COMPLETED iff some log line
contains `[SUCCESS]`, `Flash verification successful` or
`Optionbyte verification successful` and no line contains `[ERROR]`,
`Error`, `Failed` or the lowercase `failed`; otherwise it becomes FAILED
with the message "Update failed!". -/
theorem C7_success_iff :
    ∀ (job : AsyncJob) (ls : List String),
      job.state = AsyncStateKind.RUNNING → 0 < job.pid →
      ((checkAsyncCompletion job job.pid (LogFile.fileLines ls)).state =
          AsyncStateKind.COMPLETED ↔
        (ls.any successLine = true ∧ ls.any errorLine = false)) ∧
      ((checkAsyncCompletion job job.pid (LogFile.fileLines ls)).state ≠
          AsyncStateKind.COMPLETED →
        (checkAsyncCompletion job job.pid (LogFile.fileLines ls)).state =
            AsyncStateKind.FAILED ∧
          (checkAsyncCompletion job job.pid
            (LogFile.fileLines ls)).resultMessage = "Update failed!") := by
  intro job ls hrun hpid
  have hpid' : ¬ job.pid ≤ 0 := by omega
  cases hs : ls.any successLine <;> cases he : ls.any errorLine <;>
    constructor <;>
      simp [checkAsyncCompletion, parseLogForCompletion, foldl_scanLine,
        hs, he, hrun, hpid']

/-- C7, witness for `C7_success_iff` at a concrete running job and log. -/
theorem C7_witness :
    (checkAsyncCompletion ⟨AsyncStateKind.RUNNING, 7, 300, false, ""⟩ 7
        (LogFile.fileLines ["[SUCCESS] all good"])).state =
      AsyncStateKind.COMPLETED :=
  (C7_success_iff ⟨AsyncStateKind.RUNNING, 7, 300, false, ""⟩
    ["[SUCCESS] all good"] rfl (by decide)).1.mpr ⟨by decide, by decide⟩

/-! Claim C8 -/

/-- C8: when the elapsed time of a still-running async job (the non-blocking
`waitpid` returned 0) reaches its timeout, the drain of `updateAsyncProgress`
sends SIGTERM, sleeps 1 s, probes with `waitpid(WNOHANG)`, sends SIGKILL
followed by a blocking `waitpid` if the child is still alive, clears the
pid, and moves the job to TIMEOUT awaiting user input with the two-line
message rendered at rows 0 and 8. -/
theorem C8_timeout_kill :
    ∀ (job : AsyncJob) (log : LogFile) (elapsed : Int) (stillAlive : Bool),
      job.state = AsyncStateKind.RUNNING → 0 < job.pid →
      job.timeout ≤ elapsed →
      (updateAsyncProgress job 0 log elapsed stillAlive).1.state =
          AsyncStateKind.TIMEOUT ∧
      (updateAsyncProgress job 0 log elapsed stillAlive).1.waitingForUser =
          true ∧
      (updateAsyncProgress job 0 log elapsed stillAlive).1.pid = -1 ∧
      (updateAsyncProgress job 0 log elapsed stillAlive).2 =
        [SysAction.sigterm job.pid, SysAction.sleepUs 1000000,
         SysAction.waitpidNohang job.pid] ++
          (if stillAlive then
            [SysAction.sigkill job.pid, SysAction.waitpidBlock job.pid]
           else []) ∧
      renderAsyncFailTexts
          (updateAsyncProgress job 0 log elapsed
            stillAlive).1.resultMessage.toList =
        [(0, 0, "Action timed-out".toList), (0, 8, "Upate failed!".toList),
         (0, 24, "Press button".toList), (0, 32, "to continue".toList)] := by
  intro job log elapsed stillAlive hrun hpid htime
  have hpid' : ¬ job.pid ≤ 0 := by omega
  have hne0 : ¬ (0 : Int) = job.pid := by omega
  have hnem1 : ¬ (0 : Int) = -1 := by decide
  have hchk : checkAsyncCompletion job 0 log = job := by
    unfold checkAsyncCompletion
    rw [if_neg, if_neg hne0, if_neg hnem1]
    push_neg
    exact ⟨by omega, hrun⟩
  have hrender :
      renderAsyncFailTexts ("Action timed-out\nUpate failed!".toList) =
        [(0, 0, "Action timed-out".toList), (0, 8, "Upate failed!".toList),
         (0, 24, "Press button".toList), (0, 32, "to continue".toList)] := by
    decide
  simp only [updateAsyncProgress, hchk]
  rw [if_pos (And.intro htime hrun)]
  simp only [killAsyncProcess, if_pos (show job.pid > 0 from hpid)]
  exact ⟨by trivial, by trivial, by trivial, by simp, hrender⟩

/-- C8, witness for `C8_timeout_kill` at a concrete running job whose
2-second timeout has elapsed. -/
theorem C8_witness :
    (updateAsyncProgress ⟨AsyncStateKind.RUNNING, 5, 2, false, ""⟩ 0
        LogFile.noPath 2 true).1.state = AsyncStateKind.TIMEOUT ∧
    (updateAsyncProgress ⟨AsyncStateKind.RUNNING, 5, 2, false, ""⟩ 0
        LogFile.noPath 2 true).2 =
      [SysAction.sigterm 5, SysAction.sleepUs 1000000,
       SysAction.waitpidNohang 5] ++
        (if true then [SysAction.sigkill 5, SysAction.waitpidBlock 5]
         else []) := by
  have h := C8_timeout_kill ⟨AsyncStateKind.RUNNING, 5, 2, false, ""⟩
    LogFile.noPath 2 true rfl (by decide) (by decide)
  exact ⟨h.1, h.2.2.2.1⟩

/-! Claim C9 -/

/-- C9: the invariant `pid > 0 ⇔ state == RUNNING` holds initially, is
established by starting a job (for any nonzero `fork` result as seen by the
parent), and is preserved by completion polling, the progress/timeout
update, and the user's dismissal of a result — each such step clears the
stored pid exactly when it leaves the RUNNING state. -/
theorem C9_pid_running_invariant :
    asyncPidInvariant initialAsyncJob ∧
    (∀ (job : AsyncJob) (forkRes timeout : Int), forkRes ≠ 0 →
      asyncPidInvariant (startAsyncProcess job forkRes timeout)) ∧
    (∀ (job : AsyncJob) (waitRes : Int) (log : LogFile),
      asyncPidInvariant job →
      asyncPidInvariant (checkAsyncCompletion job waitRes log)) ∧
    (∀ (job : AsyncJob) (waitRes : Int) (log : LogFile) (elapsed : Int)
        (stillAlive : Bool), asyncPidInvariant job →
      asyncPidInvariant
        (updateAsyncProgress job waitRes log elapsed stillAlive).1) ∧
    (∀ (job : AsyncJob) (inputReceived : Bool), asyncPidInvariant job →
      asyncPidInvariant (dismissAsyncResult job inputReceived)) := by
  refine ⟨?_, ?_, ?_, ?_, ?_⟩
  · simp [asyncPidInvariant, initialAsyncJob]
  · intro job f t hf
    unfold startAsyncProcess asyncPidInvariant
    split_ifs with h1 h2 <;> simp_all
  · intro job w log hinv
    exact checkAsyncCompletion_invariant job w log hinv
  · intro job w log e alive hinv
    have hj := checkAsyncCompletion_invariant job w log hinv
    unfold asyncPidInvariant at *
    unfold updateAsyncProgress
    by_cases hcond : (checkAsyncCompletion job w log).timeout ≤ e ∧
        (checkAsyncCompletion job w log).state = AsyncStateKind.RUNNING
    · rw [if_pos hcond]
      have hpid : (checkAsyncCompletion job w log).pid > 0 := hj.mpr hcond.2
      unfold killAsyncProcess
      rw [if_pos hpid]
      simp
    · rw [if_neg hcond]
      exact hj
  · intro job input hinv
    unfold asyncPidInvariant at *
    unfold dismissAsyncResult
    split_ifs with h
    · obtain ⟨hw, hs, hi⟩ := h
      rcases hs with hs | hs | hs <;> simp_all
    · exact hinv

/-- C9, witness for `C9_pid_running_invariant`: start a job from the idle
initial state with `fork` returning pid 5. -/
theorem C9_witness :
    asyncPidInvariant (startAsyncProcess initialAsyncJob 5 10) :=
  C9_pid_running_invariant.2.1 initialAsyncJob 5 10 (by decide)

/-! Claim C10 -/

/-- C10: on the I²C backend, drawing a character whose glyph does not fit at
the current cursor (`cursor_y / 8 ≥ DISPLAY_PAGES`, or
`cursor_x > DISPLAY_WIDTH - 8 = 120`) returns immediately: the framebuffer
is unchanged, no I²C write is issued, and the cursor does not advance. -/
theorem C10_drawCharacter_bounds :
    ∀ (font : Nat → Nat → Nat) (st : I2CState) (c : Int),
      DISPLAY_PAGES ≤ st.cursorY / 8 ∨ DISPLAY_WIDTH - 8 < st.cursorX →
      drawCharacter font st c = (st, []) := by
  intro font st c h
  unfold drawCharacter
  rw [if_pos]
  exact h

/-- C10, witness for `C10_drawCharacter_bounds`: cursor at column 121 of an
all-zero framebuffer. -/
theorem C10_witness :
    drawCharacter (fun _ _ => 0) ⟨List.replicate 1024 0, 121, 0⟩ 65 =
      (⟨List.replicate 1024 0, 121, 0⟩, []) :=
  C10_drawCharacter_bounds (fun _ _ => 0) ⟨List.replicate 1024 0, 121, 0⟩ 65
    (Or.inr (by decide))
